import Mathlib

/-!
Shallow embedding of `overviewer_core/observer.py` (Minecraft Overviewer):
the progress-observation core with a base `Observer` tracker and three sinks
(`LoggingObserver`, `ProgressBarObserver`, `JSObserver`).

Modelling conventions:
  - Python `time.time()` timestamps and float durations are rationals (ℚ),
    progress counts are integers (ℤ).
  - A method that can raise a Python exception (TypeError from arithmetic on
    `None`, AttributeError from reading a never-assigned attribute) returns
    `Option`; `none` models the raised exception.
  - An attribute that a constructor never assigns (the broken
    `super(Observer, self).__init__()` call in `LoggingObserver.__init__`, and
    `JSObserver.__init__` which does not call the base constructor) is an
    `Option` field holding `none`: reading it raises AttributeError.  For the
    base `Observer`, whose constructor assigns every attribute to Python
    `None`, an `Option` field holding `none` models the value `None` instead;
    the two cases never coexist in one field, and each field's doc says which
    reading applies.
  - Each update/start method returns, next to the successor state, the Bool
    the Python method returns (whether the call emitted), and file-writing
    methods record the last written document in the state.
-/

namespace Overviewer

/-- Truncation toward zero: Python `%d`-formatting of a float value. -/
def pyTrunc (q : ℚ) : ℤ := if 0 ≤ q then ⌊q⌋ else ⌈q⌉

/-- Python float floor division `a // b`, as the (float) value it returns. -/
def pyFDiv (a b : ℚ) : ℚ := ((⌊a / b⌋ : ℤ) : ℚ)

/-- The three-band value staircase used by `LoggingObserver._need_update`
(lines 109-116) and the value part of `JSObserver._need_update`
(lines 256-261): threshold 10 below 100, 50 below 500, 100 above. -/
def staircase (cur last : ℤ) : Bool :=
  if cur < 100 then decide (cur - last > 10)
  else if cur < 500 then decide (cur - last > 50)
  else decide (cur - last > 100)

/-- State of the base `Observer` (lines 22-84).  All four attributes are
assigned by `__init__`, so `none` in a field models the Python value `None`. -/
structure Observer where
  current_value : Option ℤ
  max_value : Option ℤ
  start_time : Option ℚ
  end_time : Option ℚ
deriving Repr, DecidableEq

/-- Observer.__init__ (lines 26-30): every attribute set to None. -/
def Observer.init : Observer :=
  { current_value := none, max_value := none, start_time := none, end_time := none }

/-- Observer.get_current_value (lines 77-78). -/
def Observer.get_current_value (s : Observer) : Option ℤ := s.current_value

/-- Observer.get_max_value (lines 80-81). -/
def Observer.get_max_value (s : Observer) : Option ℤ := s.max_value

/-- Observer.update (lines 62-67): store the value, return False. -/
def Observer.update (s : Observer) (v : ℤ) : Observer × Bool :=
  ({ s with current_value := some v }, false)

/-- Observer.start (lines 32-38): set max_value, set start_time to now, do an
internal update(0), return self.  The Bool records whether the method returns
the tracker itself (`return self`); here it does. -/
def Observer.start (s : Observer) (maxv : ℤ) (now : ℚ) : Observer × Bool :=
  let s1 := { s with max_value := some maxv, start_time := some now }
  ((s1.update 0).1, true)

/-- Observer.is_started (lines 40-41): start_time is not None. -/
def Observer.is_started (s : Observer) : Bool := s.start_time.isSome

/-- Observer.finish (lines 43-47): set end_time to now. -/
def Observer.finish (s : Observer) (now : ℚ) : Observer :=
  { s with end_time := some now }

/-- Observer.is_finished (lines 49-50): end_time is not None. -/
def Observer.is_finished (s : Observer) : Bool := s.end_time.isSome

/-- Observer.is_running (lines 52-53). -/
def Observer.is_running (s : Observer) : Bool := s.is_started && !s.is_finished

/-- Observer.add (lines 55-60): zero amounts are ignored; otherwise
`update(get_current_value() + amount)`.  When current_value is None the
addition `None + amount` raises TypeError, modelled as `none`. -/
def Observer.add (s : Observer) (amount : ℤ) : Option Observer :=
  if amount = 0 then some s
  else
    match s.current_value with
    | some c => some ((s.update (c + amount)).1)
    | none => none

/-- Observer.get_percentage (lines 69-75): 100.0 when max_value is 0, else
`current * 100.0 / max`.  When either operand is Python None, the float
arithmetic raises TypeError, modelled as `none`.  (The source's identity
check `is 0` coincides with `== 0` on the interned small integer 0.) -/
def Observer.get_percentage (s : Observer) : Option ℚ :=
  if s.max_value = some 0 then some 100
  else
    match s.current_value, s.max_value with
    | some c, some m => some ((c : ℚ) * 100 / (m : ℚ))
    | _, _ => none

example : (Observer.init.start 4 10).1.get_percentage = some 0 := by
  norm_num [Observer.init, Observer.start, Observer.update, Observer.get_percentage]
example : ((Observer.init.start 4 10).1.update 3).1.get_percentage = some 75 := by
  norm_num [Observer.init, Observer.start, Observer.update, Observer.get_percentage]
example : (Observer.init.start 0 10).1.get_percentage = some 100 := by
  norm_num [Observer.init, Observer.start, Observer.update, Observer.get_percentage]

/-- State of `LoggingObserver` (lines 86-116).  Its `__init__` calls
`super(Observer, self).__init__()`, which resolves past `Observer` to
`object.__init__` and therefore never runs the base constructor: only
`last_update` exists after construction.  Here `none` in an `Option` field
models an absent attribute, whose read raises AttributeError. -/
structure LoggingObserver where
  last_update : ℤ
  current_value : Option ℤ
  max_value : Option ℤ
  start_time : Option ℚ
  end_time : Option ℚ
deriving Repr, DecidableEq

/-- LoggingObserver.__init__ (lines 89-92): only the sentinel is assigned. -/
def LoggingObserver.init : LoggingObserver :=
  { last_update := -101, current_value := none, max_value := none,
    start_time := none, end_time := none }

/-- LoggingObserver.update (lines 99-107): store the value, then emit a log
line and advance `last_update` when the staircase allows.  The emitted line
formats `get_max_value()`, so emitting before `start` reads the absent
`_max_value` attribute and raises AttributeError (`none`). -/
def LoggingObserver.update (s : LoggingObserver) (v : ℤ) : Option (LoggingObserver × Bool) :=
  let s1 := { s with current_value := some v }
  if staircase v s1.last_update then
    match s1.max_value with
    | some _ => some ({ s1 with last_update := v }, true)
    | none => none
  else some (s1, false)

/-- LoggingObserver start is the inherited Observer.start (lines 32-38): set
max_value and start_time, then an internal update(0) (dispatching to
LoggingObserver.update) and return self.  The Bool is whether that internal
update(0) emitted a line. -/
def LoggingObserver.start (s : LoggingObserver) (maxv : ℤ) (now : ℚ) :
    Option (LoggingObserver × Bool) :=
  ({ s with max_value := some maxv, start_time := some now } : LoggingObserver).update 0

/-- LoggingObserver is_started is the inherited Observer.is_started: reading
`start_time` on a fresh instance raises AttributeError (`none`); once `start`
has assigned it, the value is a float, never Python None, so the result is
`true`. -/
def LoggingObserver.is_started (s : LoggingObserver) : Option Bool :=
  s.start_time.map fun _ => true

/-- LoggingObserver is_finished is the inherited Observer.is_finished:
AttributeError before `finish` first assigns `end_time`, `true` after. -/
def LoggingObserver.is_finished (s : LoggingObserver) : Option Bool :=
  s.end_time.map fun _ => true

/-- LoggingObserver.finish (lines 94-97): log the final line (which reads the
`_max_value` attribute, AttributeError when absent) then set end_time. -/
def LoggingObserver.finish (s : LoggingObserver) (now : ℚ) : Option LoggingObserver :=
  match s.max_value with
  | some _ => some { s with end_time := some now }
  | none => none

/-- Run a list of update calls against a LoggingObserver, collecting each
call's emission flag; an exception aborts the run. -/
def LoggingObserver.runUpdates (s : LoggingObserver) :
    List ℤ → Option (LoggingObserver × List Bool)
  | [] => some (s, [])
  | v :: vs => do
    let (s1, e) ← s.update v
    let (s2, es) ← s1.runUpdates vs
    pure (s2, e :: es)

/-- Spec-side count (section 8): how many times a value sequence crosses the
10/50/100 staircase threshold, tracking lastEmittedValue from `last`. -/
def countCrossings (last : ℤ) : List ℤ → Nat
  | [] => 0
  | v :: vs => if staircase v last then countCrossings v vs + 1 else countCrossings last vs

theorem loggingRunUpdates_count (vs : List ℤ) :
    ∀ s : LoggingObserver, s.max_value.isSome →
      ∃ r, s.runUpdates vs = some r ∧
        r.1.max_value = s.max_value ∧ r.2.count true = countCrossings s.last_update vs := by
  induction vs with
  | nil =>
    intro s _
    exact ⟨(s, []), rfl, rfl, rfl⟩
  | cons v vs ih =>
    intro s hs
    match hm : s.max_value with
    | none => simp [hm] at hs
    | some m =>
      by_cases hc : staircase v s.last_update
      · have hstep : s.update v =
            some ({ s with current_value := some v, last_update := v }, true) := by
          simp [LoggingObserver.update, hc, hm]
        obtain ⟨r, hr, hrm, hcount⟩ :=
          ih { s with current_value := some v, last_update := v } (by simp [hm])
        refine ⟨(r.1, true :: r.2), ?_, ?_, ?_⟩
        · simp [LoggingObserver.runUpdates, hstep, hr]
        · simpa [hm] using hrm
        · simp [List.count_cons, hcount, countCrossings, hc]
      · have hstep : s.update v = some ({ s with current_value := some v }, false) := by
          simp [LoggingObserver.update, hc]
        obtain ⟨r, hr, hrm, hcount⟩ := ih { s with current_value := some v } (by simp [hm])
        refine ⟨(r.1, false :: r.2), ?_, ?_, ?_⟩
        · simp [LoggingObserver.runUpdates, hstep, hr]
        · simpa [hm] using hrm
        · simp [List.count_cons, hcount, countCrossings, hc]

example : (LoggingObserver.init.start 200 0).map (fun r => r.2) = some true := by decide
example : LoggingObserver.init.runUpdates [5] = none := by decide
example : (LoggingObserver.init.runUpdates [-95]).map (fun r => r.2) = some [false] := by decide

/-- State of `ProgressBarObserver` (lines 125-167).  The current and maximum
counters (`currval`, `maxval`) live in the terminal bar renderer collaborator
(`progressbar.ProgressBar`, bundled with the repository but outside src/),
which is the source of truth for what has been painted. -/
structure ProgressBarObserver where
  currval : ℤ
  maxval : ℤ
  last_update : ℤ
  start_time : Option ℚ
deriving Repr, DecidableEq

/-- The class constant UPDATE_INTERVAL (line 130). -/
def ProgressBarObserver.UPDATE_INTERVAL : ℤ := 25

/-- ProgressBarObserver.__init__ (lines 132-135): the sink sentinel is
`0 - (UPDATE_INTERVAL + 1) = -26`.  Modelled from the spec: the collaborator
constructor zeroes its own counters. -/
def ProgressBarObserver.init : ProgressBarObserver :=
  { currval := 0, maxval := 0,
    last_update := 0 - (ProgressBarObserver.UPDATE_INTERVAL + 1), start_time := none }

/-- ProgressBarObserver._need_update (lines 166-167). -/
def ProgressBarObserver.need_update (s : ProgressBarObserver) : Bool :=
  decide (s.currval - s.last_update > ProgressBarObserver.UPDATE_INTERVAL)

/-- Modelled from the spec: `progressbar.ProgressBar.update`, the terminal bar
renderer collaborator (bundled with the repository but outside src/).  Per
spec sections 4.3 and 6 it stores the new value in its own counter, repaints
exactly when the sink's throttle predicate allows, and returns whether it
painted. -/
def ProgressBar.update (s : ProgressBarObserver) (v : ℤ) : ProgressBarObserver × Bool :=
  let s1 := { s with currval := v }
  (s1, s1.need_update)

/-- ProgressBarObserver.update (lines 151-153): delegate to the collaborator;
when it painted, advance `last_update` to `get_current_value()`.  The Bool is
whether the update was painted (the Python method itself returns None). -/
def ProgressBarObserver.update (s : ProgressBarObserver) (v : ℤ) :
    ProgressBarObserver × Bool :=
  let r := ProgressBar.update s v
  if r.2 then ({ r.1 with last_update := r.1.currval }, true) else (r.1, false)

/-- Run a list of update calls against a ProgressBarObserver, collecting each
call's painted flag. -/
def ProgressBarObserver.runUpdates (s : ProgressBarObserver) :
    List ℤ → ProgressBarObserver × List Bool
  | [] => (s, [])
  | v :: vs =>
    let r := s.update v
    let rest := r.1.runUpdates vs
    (rest.1, r.2 :: rest.2)

example : (ProgressBarObserver.init.runUpdates [0, 10, 24, 26, 50]).2 =
    [true, false, false, true, false] := by decide

/-- Message part of the status document `progress.js`, one constructor per
format string in `JSObserver` (lines 185, 190, 204, 228). -/
inductive JSMessage
  | renderInProgress
  | renderingTiles (maxv : ℤ)
  | renderedTiles (cur maxv pct : ℤ)
  | renderCompleted (mins secs : ℤ)
deriving Repr, DecidableEq

/-- The `update` field of the status document: an integer number of
milliseconds, or the terminal string sentinel `"false"` (line 204). -/
inductive JSUpdateField
  | interval (ms : ℤ)
  | falseSentinel
deriving Repr, DecidableEq

/-- The status document written wholesale to `progress.js` on each emission. -/
structure StatusDoc where
  message : JSMessage
  update : JSUpdateField
deriving Repr, DecidableEq

/-- State of `JSObserver` (lines 169-261).  `file` is the current content of
`progress.js` (each write fully replaces it).  `__init__` does not call the
base constructor, so `start_time`, `end_time` and `_max_value` are absent
attributes until `start`/`finish` assign them: `none` models the absent
attribute and reading it raises AttributeError. -/
structure JSObserver where
  last_update : ℤ
  last_update_time : ℚ
  current_value : ℤ
  minrefresh : ℤ
  file : StatusDoc
  start_time : Option ℚ
  end_time : Option ℚ
  max_value : Option ℤ
deriving Repr, DecidableEq

/-- JSObserver.__init__ (lines 173-186): sentinels `last_update = -11`,
`last_update_time = -1`, `_current_value = -1`; `minrefresh` is the
constructor argument (seconds, default 5) times 1000; immediately writes the
initial document. -/
def JSObserver.init (minrefresh : ℤ) : JSObserver :=
  { last_update := -11, last_update_time := -1, current_value := -1,
    minrefresh := 1000 * minrefresh,
    file := { message := .renderInProgress, update := .interval (1000 * minrefresh) },
    start_time := none, end_time := none, max_value := none }

/-- JSObserver.start (lines 188-192): overwrite the file with the tile count
and the configured refresh, set start_time, set max_value.  It neither calls
update(0) nor touches `last_update_time`/`_current_value`, and it falls off
the end of the method body: the Bool records whether the method returns the
tracker itself (`return self`), which here is false (Python returns None). -/
def JSObserver.start (s : JSObserver) (maxv : ℤ) (now : ℚ) : JSObserver × Bool :=
  ({ s with
      file := { message := .renderingTiles maxv, update := .interval s.minrefresh },
      start_time := some now, max_value := some maxv }, false)

/-- JSObserver.is_started (lines 194-195): AttributeError (`none`) on a fresh
instance, whose constructor never assigns `start_time`; `true` once `start`
has assigned it (a float, never Python None). -/
def JSObserver.is_started (s : JSObserver) : Option Bool :=
  s.start_time.map fun _ => true

/-- JSObserver.is_finished (lines 207-208): AttributeError before `finish`
first assigns `end_time`, `true` after. -/
def JSObserver.is_finished (s : JSObserver) : Option Bool :=
  s.end_time.map fun _ => true

/-- JSObserver.get_percentage (lines 235-241): identical to the base
Observer.get_percentage, with `_current_value` always an integer here;
reading the absent `_max_value` attribute before `start` raises
AttributeError (`none`). -/
def JSObserver.get_percentage (s : JSObserver) : Option ℚ :=
  match s.max_value with
  | none => none
  | some m => if m = 0 then some 100 else some ((s.current_value : ℚ) * 100 / (m : ℚ))

/-- JSObserver._need_update (lines 252-261): the time floor gate
`(now - last_update_time) <= minrefresh // 1000` (seconds), then the value
staircase on `_current_value` against `last_update`. -/
def JSObserver.need_update (s : JSObserver) (now : ℚ) : Bool :=
  if now - s.last_update_time ≤ ((Int.fdiv s.minrefresh 1000 : ℤ) : ℚ) then false
  else staircase s.current_value s.last_update

/-- JSObserver.update (lines 220-233): store the value; when `_need_update`
passes, write the document with the truncated percentage and the adaptive
refresh `max(1500 * (now - last_update_time), minrefresh)` (truncated by the
`%d` format), then set `last_update_time = now` and `last_update` and return
True.  The write formats `get_max_value()` and `get_percentage()`, so an
emitting update before `start` raises AttributeError (`none`). -/
def JSObserver.update (s : JSObserver) (v : ℤ) (now : ℚ) : Option (JSObserver × Bool) :=
  let s1 := { s with current_value := v }
  if s1.need_update now then
    match s1.max_value, s1.get_percentage with
    | some m, some pct =>
      let refresh : ℚ := max (1500 * (now - s1.last_update_time)) (s1.minrefresh : ℚ)
      some ({ s1 with
          file := { message := .renderedTiles v m (pyTrunc pct),
                    update := .interval (pyTrunc refresh) },
          last_update_time := now, last_update := v }, true)
    | _, _ => none
  else some (s1, false)

/-- JSObserver.finish (lines 197-205): set end_time, compute the duration
(reading `start_time`, AttributeError when absent), and write the final
document with minutes `duration // 60`, a seconds field computed as
`duration - duration // 60`, and the string `"false"` in the update field. -/
def JSObserver.finish (s : JSObserver) (now : ℚ) : Option JSObserver :=
  match s.start_time with
  | none => none
  | some t0 =>
    let dur : ℚ := now - t0
    some { s with
      end_time := some now,
      file := { message := .renderCompleted (pyTrunc (pyFDiv dur 60))
                                            (pyTrunc (dur - pyFDiv dur 60)),
                update := .falseSentinel } }

example : ((JSObserver.init 5).start 100 0).2 = false := by decide
example : (((JSObserver.init 5).start 100 0).1.update 0 10).map (fun r => r.2) =
    some true := by
  norm_num [JSObserver.init, JSObserver.start, JSObserver.update, JSObserver.need_update,
    JSObserver.get_percentage, staircase, pyTrunc, Int.fdiv]

/-- The successor state of an emitting JSObserver.update call (lines 226-231),
as a function of the pre-state, the value, the call time and the max value. -/
def jsEmitState (s : JSObserver) (v : ℤ) (now : ℚ) (m : ℤ) : JSObserver :=
  { s with
      current_value := v,
      file := { message := .renderedTiles v m
                  (pyTrunc (if m = 0 then (100 : ℚ) else (v : ℚ) * 100 / (m : ℚ))),
                update := .interval
                  (pyTrunc (max (1500 * (now - s.last_update_time)) (s.minrefresh : ℚ))) },
      last_update_time := now,
      last_update := v }

theorem jsUpdate_does_emit (s : JSObserver) (v : ℤ) (now : ℚ) (m : ℤ)
    (hm : s.max_value = some m)
    (ht : ¬ now - s.last_update_time ≤ ((Int.fdiv s.minrefresh 1000 : ℤ) : ℚ))
    (hs : staircase v s.last_update = true) :
    s.update v now = some (jsEmitState s v now m, true) := by
  by_cases h0 : m = 0 <;>
    simp [JSObserver.update, JSObserver.need_update, JSObserver.get_percentage, ht, hs, hm,
      h0, jsEmitState]

theorem jsUpdate_no_emit (s : JSObserver) (v : ℤ) (now : ℚ)
    (h : now - s.last_update_time ≤ ((Int.fdiv s.minrefresh 1000 : ℤ) : ℚ) ∨
      staircase v s.last_update = false) :
    s.update v now = some ({ s with current_value := v }, false) := by
  rcases h with ht | hs
  · simp [JSObserver.update, JSObserver.need_update, ht]
  · by_cases ht : now - s.last_update_time ≤ ((Int.fdiv s.minrefresh 1000 : ℤ) : ℚ)
    · simp [JSObserver.update, JSObserver.need_update, ht]
    · simp [JSObserver.update, JSObserver.need_update, ht, hs]

theorem jsUpdate_emit_inv (s : JSObserver) (v : ℤ) (now : ℚ) (r : JSObserver × Bool)
    (h : s.update v now = some r) (he : r.2 = true) :
    ¬ now - s.last_update_time ≤ ((Int.fdiv s.minrefresh 1000 : ℤ) : ℚ) ∧
    staircase v s.last_update = true ∧
    ∃ m, s.max_value = some m ∧ r = (jsEmitState s v now m, true) := by
  by_cases ht : now - s.last_update_time ≤ ((Int.fdiv s.minrefresh 1000 : ℤ) : ℚ)
  · rw [jsUpdate_no_emit s v now (Or.inl ht)] at h
    rw [← Option.some.inj h] at he
    simp at he
  · by_cases hs : staircase v s.last_update
    · match hm : s.max_value with
      | none =>
        simp [JSObserver.update, JSObserver.need_update, JSObserver.get_percentage, ht, hs,
          hm] at h
      | some m =>
        rw [jsUpdate_does_emit s v now m hm ht hs] at h
        exact ⟨ht, hs, m, rfl, (Option.some.inj h).symm⟩
    · rw [jsUpdate_no_emit s v now (Or.inr (by simpa using hs))] at h
      rw [← Option.some.inj h] at he
      simp at he

/-- One call of the base tracker's public interface, with the wall-clock time
passed to the calls that read it. -/
inductive ObsCall
  | startCall (maxv : ℤ) (t : ℚ)
  | updateCall (v : ℤ)
  | addCall (a : ℤ)
  | finishCall (t : ℚ)
deriving Repr, DecidableEq

def ObsCall.isStartCall : ObsCall → Bool
  | .startCall _ _ => true
  | _ => false

def ObsCall.isFinishCall : ObsCall → Bool
  | .finishCall _ => true
  | _ => false

/-- Execute one base-tracker call; `none` models a raised exception. -/
def Observer.step (s : Observer) : ObsCall → Option Observer
  | .startCall m t => some (s.start m t).1
  | .updateCall v => some (s.update v).1
  | .addCall a => s.add a
  | .finishCall t => some (s.finish t)

/-- Execute a sequence of base-tracker calls; an exception aborts the run. -/
def Observer.runCalls (s : Observer) : List ObsCall → Option Observer
  | [] => some s
  | c :: cs =>
    match s.step c with
    | none => none
    | some s1 => s1.runCalls cs

theorem step_times (s : Observer) (c : ObsCall) (s1 : Observer)
    (h : s.step c = some s1) :
    s1.start_time.isSome = (s.start_time.isSome || c.isStartCall) ∧
    s1.end_time.isSome = (s.end_time.isSome || c.isFinishCall) := by
  cases c with
  | startCall m t =>
    rw [Option.some.inj h.symm]
    simp [Observer.step, Observer.start, Observer.update, ObsCall.isStartCall,
      ObsCall.isFinishCall]
  | updateCall v =>
    rw [Option.some.inj h.symm]
    simp [Observer.step, Observer.update, ObsCall.isStartCall, ObsCall.isFinishCall]
  | addCall a =>
    simp only [Observer.step, Observer.add] at h
    by_cases ha : a = 0
    · rw [if_pos ha] at h
      rw [Option.some.inj h.symm]
      simp [ObsCall.isStartCall, ObsCall.isFinishCall]
    · rw [if_neg ha] at h
      match hc : s.current_value with
      | none => rw [hc] at h; cases h
      | some cv =>
        rw [hc] at h
        rw [Option.some.inj h.symm]
        simp [Observer.update, ObsCall.isStartCall, ObsCall.isFinishCall]
  | finishCall t =>
    rw [Option.some.inj h.symm]
    simp [Observer.step, Observer.finish, ObsCall.isStartCall, ObsCall.isFinishCall]

theorem runCalls_times (cs : List ObsCall) :
    ∀ s s1 : Observer, s.runCalls cs = some s1 →
      s1.start_time.isSome = (s.start_time.isSome || cs.any ObsCall.isStartCall) ∧
      s1.end_time.isSome = (s.end_time.isSome || cs.any ObsCall.isFinishCall) := by
  induction cs with
  | nil =>
    intro s s1 h
    simp only [Observer.runCalls] at h
    rw [Option.some.inj h.symm]
    simp
  | cons c cs ih =>
    intro s s1 h
    simp only [Observer.runCalls] at h
    match hstep : s.step c with
    | none => rw [hstep] at h; cases h
    | some s2 =>
      rw [hstep] at h
      obtain ⟨h1, h2⟩ := step_times s c s2 hstep
      obtain ⟨h3, h4⟩ := ih s2 s1 h
      constructor
      · rw [h3, h1]
        simp [List.any_cons, Bool.or_assoc]
      · rw [h4, h2]
        simp [List.any_cons, Bool.or_assoc]

/-- A base tracker after start(4) and update(3): current 3 of max 4. -/
def obsSample : Observer := ((Observer.init.start 4 10).1.update 3).1

/-- A StatusFileSink started with max 0. -/
def jsSample : JSObserver := ((JSObserver.init 5).start 0 0).1

/-- C1: for every tracker or sink with maxValue set, getPercentage() returns
currentValue * 100 / maxValue when maxValue > 0 and returns exactly 100.0
whenever maxValue = 0, for every currentValue (including 0), and never raises
a division-by-zero fault (the result is always a value, never an exception) —
shown for the base tracker and for the StatusFileSink's own copy. -/
theorem C1_get_percentage (s : Observer) (js : JSObserver) (c m mj : ℤ)
    (hc : s.current_value = some c) (hm : s.max_value = some m)
    (hj : js.max_value = some mj) :
    (m = 0 → s.get_percentage = some 100) ∧
    (0 < m → s.get_percentage = some ((c : ℚ) * 100 / (m : ℚ))) ∧
    s.get_percentage.isSome = true ∧
    (mj = 0 → js.get_percentage = some 100) ∧
    (0 < mj → js.get_percentage = some ((js.current_value : ℚ) * 100 / (mj : ℚ))) ∧
    js.get_percentage.isSome = true := by
  refine ⟨?_, ?_, ?_, ?_, ?_, ?_⟩
  · intro h0
    simp [Observer.get_percentage, hm, h0]
  · intro hpos
    have h0 : ¬ m = 0 := by omega
    simp [Observer.get_percentage, hm, hc, h0]
  · by_cases h0 : m = 0
    · simp [Observer.get_percentage, hm, h0]
    · simp [Observer.get_percentage, hm, hc, h0]
  · intro h0
    simp [JSObserver.get_percentage, hj, h0]
  · intro hpos
    have h0 : ¬ mj = 0 := by omega
    simp [JSObserver.get_percentage, hj, h0]
  · by_cases h0 : mj = 0
    · simp [JSObserver.get_percentage, hj, h0]
    · simp [JSObserver.get_percentage, hj, h0]

/-- Witness for C1: the tracker at 3 of 4 and a sink with max 0. -/
theorem C1_get_percentage_witness :
    ((4 : ℤ) = 0 → obsSample.get_percentage = some 100) ∧
    ((0 : ℤ) < 4 → obsSample.get_percentage = some ((3 : ℚ) * 100 / ((4 : ℤ) : ℚ))) ∧
    obsSample.get_percentage.isSome = true ∧
    ((0 : ℤ) = 0 → jsSample.get_percentage = some 100) ∧
    ((0 : ℤ) < 0 → jsSample.get_percentage =
      some ((jsSample.current_value : ℚ) * 100 / ((0 : ℤ) : ℚ))) ∧
    jsSample.get_percentage.isSome = true :=
  C1_get_percentage obsSample jsSample 3 4 0 rfl rfl rfl

/-- C3: for a LogSink given a sequence of update calls with strictly
increasing values, the count of emitted lines equals the number of staircase
threshold crossings (thresholds 10/50/100 by band, tracking
lastEmittedValue), and the internal update(0) performed by start always
emits, thanks to the -101 sentinel. -/
theorem C3_logging_staircase (vs : List ℤ) (hinc : vs.Chain' (· < ·))
    (m : ℤ) (now : ℚ) (r0 : LoggingObserver × Bool)
    (hstart : LoggingObserver.init.start m now = some r0) :
    r0.2 = true ∧
    ∃ r, r0.1.runUpdates vs = some r ∧
      r.2.count true = countCrossings r0.1.last_update vs := by
  have hs : LoggingObserver.init.start m now =
      some ({ last_update := 0, current_value := some 0, max_value := some m,
              start_time := some now, end_time := none }, true) := by
    norm_num [LoggingObserver.start, LoggingObserver.update, LoggingObserver.init, staircase]
  rw [hs] at hstart
  rw [← Option.some.inj hstart]
  refine ⟨rfl, ?_⟩
  obtain ⟨r, hr, _, hcount⟩ := loggingRunUpdates_count vs
    { last_update := 0, current_value := some 0, max_value := some m,
      start_time := some now, end_time := none } (by simp)
  exact ⟨r, hr, hcount⟩

/-- The LogSink right after LoggingObserver.init.start 200 0. -/
def logSample : LoggingObserver :=
  { last_update := 0, current_value := some 0, max_value := some 200,
    start_time := some 0, end_time := none }

/-- Witness for C3: the increasing sequence 5, 12, 120 after start(200). -/
theorem C3_logging_staircase_witness :
    (logSample, true).2 = true ∧
    ∃ r, (logSample, true).1.runUpdates [5, 12, 120] = some r ∧
      r.2.count true = countCrossings (logSample, true).1.last_update [5, 12, 120] :=
  C3_logging_staircase [5, 12, 120]
    (by norm_num [List.chain'_cons, List.chain'_singleton]) 200 0 (logSample, true)
    (by decide)

/-- C5 counterexample: on the StatusFileSink, start(100) performs no internal
update(0) — the current value keeps its -1 construction sentinel instead of
becoming 0 — and the method returns None rather than the tracker (the second
component records whether the method returns self). -/
theorem C5_counterexample :
    ((JSObserver.init 5).start 100 7).1.current_value = -1 ∧
    ((JSObserver.init 5).start 100 7).2 = false := by decide

/-- C5 (amended): the base tracker's start(maxValue) with maxValue at least 0
sets maxValue, records startTime = now, performs an internal update(0) so the
first status reflects zero progress, and returns the tracker itself; the
StatusFileSink's start sets maxValue and startTime (and rewrites the status
file) but performs no internal update(0) — its current value is unchanged —
and returns None rather than the tracker. -/
theorem C5_start_contract (s : Observer) (js : JSObserver) (maxv mj : ℤ)
    (now nj : ℚ) (hmax : 0 ≤ maxv) :
    ((s.start maxv now).1.max_value = some maxv ∧
     (s.start maxv now).1.start_time = some now ∧
     (s.start maxv now).1.current_value = some 0 ∧
     (s.start maxv now).2 = true) ∧
    ((js.start mj nj).1.max_value = some mj ∧
     (js.start mj nj).1.start_time = some nj ∧
     (js.start mj nj).1.current_value = js.current_value ∧
     (js.start mj nj).2 = false) := by
  simp [Observer.start, Observer.update, JSObserver.start]

/-- Witness for C5 at max 3 and concrete times. -/
theorem C5_start_contract_witness :
    ((Observer.init.start 3 10).1.max_value = some 3 ∧
     (Observer.init.start 3 10).1.start_time = some 10 ∧
     (Observer.init.start 3 10).1.current_value = some 0 ∧
     (Observer.init.start 3 10).2 = true) ∧
    (((JSObserver.init 5).start 3 20).1.max_value = some 3 ∧
     ((JSObserver.init 5).start 3 20).1.start_time = some 20 ∧
     ((JSObserver.init 5).start 3 20).1.current_value = (JSObserver.init 5).current_value ∧
     ((JSObserver.init 5).start 3 20).2 = false) :=
  C5_start_contract Observer.init (JSObserver.init 5) 3 3 10 20 (by decide)

/-- C7 counterexample: running updates 0, 10, 24, 26, 50 on a fresh
TerminalSink emits on 0 and on 26 but not on 50 — after the emission at 26,
the delta 50 - 26 = 24 does not exceed the interval 25 — refuting the claimed
emission on 50. -/
theorem C7_counterexample :
    (ProgressBarObserver.init.runUpdates [0, 10, 24, 26, 50]).2 =
      [true, false, false, true, false] := by decide

/-- C7 (amended): a TerminalSink update is deemed significant and emitted iff
currentValue - lastEmittedValue > 25 (the fixed UPDATE_INTERVAL), independent
of the value's magnitude; for the update sequence 0, 10, 24, 26, 50 this
emits on 0 (via the initial sentinel -26) and on 26, but not on 10, 24
or 50. -/
theorem C7_terminal_fixed_interval (s : ProgressBarObserver) (v : ℤ) :
    ((s.update v).2 = true ↔ v - s.last_update > 25) ∧
    (ProgressBarObserver.init.runUpdates [0, 10, 24, 26, 50]).2 =
      [true, false, false, true, false] := by
  constructor
  · by_cases hgt : v - s.last_update > 25
    · simp [ProgressBarObserver.update, ProgressBar.update, ProgressBarObserver.need_update,
        ProgressBarObserver.UPDATE_INTERVAL, hgt]
    · simp [ProgressBarObserver.update, ProgressBar.update, ProgressBarObserver.need_update,
        ProgressBarObserver.UPDATE_INTERVAL, hgt]
  · decide

/-- A StatusFileSink with the default 5 s floor, started with max 100 at
time 0. -/
def jsStarted : JSObserver := ((JSObserver.init 5).start 100 0).1

/-- C2: with minRefreshMs = 5000, a StatusFileSink update emits only when
both gates pass — if the update at time t emitted, then more than 5 seconds
(5000 ms) had elapsed since lastEmitTime and the value staircase threshold
was crossed; after an emitting update, a second update 0.1 s (100 ms) later
never writes the file, regardless of its value; and a second update 6 s
later with value delta above 10 and current value below 100 does write,
giving two writes for the pair.  (If the first of two calls 100 ms apart did
not emit, the pair trivially produces at most one write.) -/
theorem C2_statusfile_dual_gate (s : JSObserver) (v1 v2 : ℤ) (t : ℚ)
    (r1 : JSObserver × Bool) (h5 : s.minrefresh = 5000)
    (h1 : s.update v1 t = some r1) (he1 : r1.2 = true) :
    (5 < t - s.last_update_time ∧ staircase v1 s.last_update = true) ∧
    (∀ r2, r1.1.update v2 (t + 1 / 10) = some r2 → r2.2 = false) ∧
    (10 < v2 - v1 → v2 < 100 →
      ∃ r2, r1.1.update v2 (t + 6) = some r2 ∧ r2.2 = true) := by
  obtain ⟨ht, hsc, m, hm, hr⟩ := jsUpdate_emit_inv s v1 t r1 h1 he1
  have hfd5 : Int.fdiv (5000 : ℤ) 1000 = 5 := by decide
  have hfd : ((Int.fdiv s.minrefresh 1000 : ℤ) : ℚ) = 5 := by
    rw [h5, hfd5]; norm_num
  rw [hfd] at ht
  have hlut : r1.1.last_update_time = t := by rw [hr]; simp [jsEmitState]
  have hmr : r1.1.minrefresh = 5000 := by rw [hr]; simp [jsEmitState, h5]
  have hlu : r1.1.last_update = v1 := by rw [hr]; simp [jsEmitState]
  have hm1 : r1.1.max_value = some m := by rw [hr]; simpa [jsEmitState] using hm
  have hfd1 : ((Int.fdiv r1.1.minrefresh 1000 : ℤ) : ℚ) = 5 := by
    rw [hmr, hfd5]; norm_num
  refine ⟨⟨by linarith [not_le.mp ht], hsc⟩, ?_, ?_⟩
  · intro r2 h2
    have hno : r1.1.update v2 (t + 1 / 10) =
        some ({ r1.1 with current_value := v2 }, false) := by
      apply jsUpdate_no_emit
      left
      rw [hlut, hfd1]
      linarith
    rw [hno] at h2
    rw [← Option.some.inj h2]
  · intro hd hv
    refine ⟨(jsEmitState r1.1 v2 (t + 6) m, true), ?_, rfl⟩
    apply jsUpdate_does_emit r1.1 v2 (t + 6) m hm1
    · rw [hlut, hfd1]
      intro hc
      linarith
    · rw [hlu]
      simp only [staircase, if_pos hv, decide_eq_true_eq]
      omega

/-- Witness for C2: the started sink, first update(0) at t = 20 s (emitting),
second value 12. -/
theorem C2_statusfile_dual_gate_witness :
    (5 < 20 - jsStarted.last_update_time ∧ staircase 0 jsStarted.last_update = true) ∧
    (∀ r2, (jsEmitState jsStarted 0 20 100, true).1.update 12 (20 + 1 / 10) = some r2 →
      r2.2 = false) ∧
    (10 < (12 : ℤ) - 0 → (12 : ℤ) < 100 →
      ∃ r2, (jsEmitState jsStarted 0 20 100, true).1.update 12 (20 + 6) = some r2 ∧
        r2.2 = true) :=
  C2_statusfile_dual_gate jsStarted 0 12 20 (jsEmitState jsStarted 0 20 100, true)
    (by decide)
    (jsUpdate_does_emit jsStarted 0 20 100 rfl
      (by norm_num [jsStarted, JSObserver.init, JSObserver.start,
            show Int.fdiv (5000 : ℤ) 1000 = 5 from by decide])
      (by decide))
    rfl

/-- C4: on each emitting update of the StatusFileSink, the update field
written to the document is the %d-truncation of
max(1500 * (now - lastEmitTime), minRefreshMs), with the seconds-scale
observed interval now - lastEmitTime multiplied by K = 1500; with a
nonnegative configured floor, the suggestion is never less than
minRefreshMs. -/
theorem C4_adaptive_poll_interval (s : JSObserver) (v : ℤ) (now : ℚ)
    (r : JSObserver × Bool) (hmr : 0 ≤ s.minrefresh)
    (h : s.update v now = some r) (he : r.2 = true) :
    r.1.file.update = .interval
      (pyTrunc (max (1500 * (now - s.last_update_time)) (s.minrefresh : ℚ))) ∧
    s.minrefresh ≤ pyTrunc (max (1500 * (now - s.last_update_time)) (s.minrefresh : ℚ)) := by
  obtain ⟨ht, hsc, m, hm, hr⟩ := jsUpdate_emit_inv s v now r h he
  constructor
  · rw [hr]
    simp [jsEmitState]
  · have hle : (s.minrefresh : ℚ) ≤
        max (1500 * (now - s.last_update_time)) (s.minrefresh : ℚ) := le_max_right _ _
    have hpos : (0 : ℚ) ≤ max (1500 * (now - s.last_update_time)) (s.minrefresh : ℚ) :=
      le_trans (by exact_mod_cast hmr) hle
    rw [pyTrunc, if_pos hpos]
    exact Int.le_floor.mpr hle

/-- Witness for C4: the started sink's emitting update(0) at t = 20 s. -/
theorem C4_adaptive_poll_interval_witness :
    (jsEmitState jsStarted 0 20 100, true).1.file.update = .interval
      (pyTrunc (max (1500 * (20 - jsStarted.last_update_time)) (jsStarted.minrefresh : ℚ))) ∧
    jsStarted.minrefresh ≤
      pyTrunc (max (1500 * (20 - jsStarted.last_update_time)) (jsStarted.minrefresh : ℚ)) :=
  C4_adaptive_poll_interval jsStarted 0 20 (jsEmitState jsStarted 0 20 100, true)
    (by decide)
    (jsUpdate_does_emit jsStarted 0 20 100 rfl
      (by norm_num [jsStarted, JSObserver.init, JSObserver.start,
            show Int.fdiv (5000 : ℤ) 1000 = 5 from by decide])
      (by decide))
    rfl

/-- C6: at the failing input — start(100) at time 0 s, update(100) at 50 s,
finish at 120 s — finish writes a document whose update field is the string
"false" (that part of the claim holds), but whose message is "Render
completed in 2m 118s": the minutes field is duration // 60 = 2 while the
seconds field is computed as duration - duration // 60 = 118, not the
seconds remainder; 2 minutes and 118 seconds is 238 s, not the 120 s
elapsed, so the message does not report the elapsed time as minutes and
seconds. -/
theorem C6_finish_document :
    ∃ r s2, jsStarted.update 100 50 = some r ∧
      r.1.finish 120 = some s2 ∧
      s2.file.update = .falseSentinel ∧
      s2.file.message = .renderCompleted 2 118 ∧
      ¬ ((2 : ℤ) * 60 + 118 = 120) := by
  have h1 : jsStarted.update 100 50 = some (jsEmitState jsStarted 100 50 100, true) :=
    jsUpdate_does_emit jsStarted 100 50 100 rfl
      (by norm_num [jsStarted, JSObserver.init, JSObserver.start,
            show Int.fdiv (5000 : ℤ) 1000 = 5 from by decide])
      (by decide)
  refine ⟨(jsEmitState jsStarted 100 50 100, true), _, h1, rfl, rfl, ?_, by decide⟩
  show JSMessage.renderCompleted (pyTrunc (pyFDiv (120 - 0) 60))
      (pyTrunc (120 - 0 - pyFDiv (120 - 0) 60)) = .renderCompleted 2 118
  have hf : pyFDiv ((120 : ℚ) - 0) 60 = 2 := by
    norm_num [pyFDiv]
  rw [hf]
  norm_num [pyTrunc]

/-- C8 counterexample: on a freshly constructed LogSink, isStarted() and
isFinished() raise AttributeError — the constructor's
super(Observer, self).__init__() call resolves past Observer to
object.__init__ and never creates the timing attributes — instead of
returning false. -/
theorem C8_counterexample :
    LoggingObserver.init.is_started = none ∧ LoggingObserver.init.is_finished = none := by
  decide

/-- C8 (amended): for the base tracker, at every point of every call
sequence, isStarted() is true iff start has been called, isFinished() is
true iff finish has been called, and isRunning() equals
isStarted() && !isFinished() — in particular false on a fresh instance and
true right after the corresponding call; on the LogSink and StatusFileSink,
however, these queries never return false: on instances whose timing
attribute has not yet been assigned they raise AttributeError instead. -/
theorem C8_lifecycle (cs : List ObsCall) (s : Observer)
    (h : Observer.init.runCalls cs = some s) :
    (s.is_started = cs.any ObsCall.isStartCall ∧
     s.is_finished = cs.any ObsCall.isFinishCall ∧
     s.is_running = (s.is_started && !s.is_finished)) ∧
    (∀ ls : LoggingObserver, ls.is_started ≠ some false ∧ ls.is_finished ≠ some false) ∧
    (∀ p : ℤ, (JSObserver.init p).is_started = none ∧
      (JSObserver.init p).is_finished = none) := by
  obtain ⟨h1, h2⟩ := runCalls_times cs Observer.init s h
  refine ⟨⟨?_, ?_, rfl⟩, ?_, ?_⟩
  · rw [Observer.is_started, h1]
    simp [Observer.init]
  · rw [Observer.is_finished, h2]
    simp [Observer.init]
  · intro ls
    constructor
    · cases hx : ls.start_time <;> simp [LoggingObserver.is_started, hx]
    · cases hx : ls.end_time <;> simp [LoggingObserver.is_finished, hx]
  · intro p
    exact ⟨rfl, rfl⟩

/-- The base tracker after start(10), update(3), add(2), finish at 9 s. -/
def obsRunSample : Observer :=
  { current_value := some 5, max_value := some 10, start_time := some 0, end_time := some 9 }

/-- Witness for C8 on the call sequence start(10); update(3); add(2); finish. -/
theorem C8_lifecycle_witness :
    (obsRunSample.is_started =
        ([ObsCall.startCall 10 0, .updateCall 3, .addCall 2, .finishCall 9].any
          ObsCall.isStartCall) ∧
     obsRunSample.is_finished =
        ([ObsCall.startCall 10 0, .updateCall 3, .addCall 2, .finishCall 9].any
          ObsCall.isFinishCall) ∧
     obsRunSample.is_running = (obsRunSample.is_started && !obsRunSample.is_finished)) ∧
    (∀ ls : LoggingObserver, ls.is_started ≠ some false ∧ ls.is_finished ≠ some false) ∧
    (∀ p : ℤ, (JSObserver.init p).is_started = none ∧
      (JSObserver.init p).is_finished = none) :=
  C8_lifecycle [ObsCall.startCall 10 0, .updateCall 3, .addCall 2, .finishCall 9]
    obsRunSample (by decide)

/-- C9 counterexample: called before start, getPercentage raises TypeError
(None * 100.0 on the unset current value), and add(5) before any update
raises TypeError (None + 5) — modelled as none — rather than completing with
a garbage numeric result, refuting the claim that no operation ever raises. -/
theorem C9_counterexample :
    Observer.init.get_percentage = none ∧ Observer.init.add 5 = none := by decide

/-- C9 (amended): the tracker raises no failure on well-sequenced calls —
update before start still completes and stores the value, and add(0) is a
no-op even before any update — but the malformed orderings the claim lists
do raise: getPercentage fails exactly when the zero-max shortcut does not
apply and an operand it needs is still None, and a nonzero add fails exactly
when no current value has been stored yet. -/
theorem C9_error_model (s : Observer) (v a : ℤ) (ha : a ≠ 0) :
    (Observer.init.update v).1.current_value = some v ∧
    (s.get_percentage = none ↔
      s.max_value ≠ some 0 ∧ (s.current_value = none ∨ s.max_value = none)) ∧
    (s.add a = none ↔ s.current_value = none) ∧
    s.add 0 = some s := by
  refine ⟨by simp [Observer.update], ?_, ?_, by simp [Observer.add]⟩
  · by_cases h0 : s.max_value = some 0
    · simp [Observer.get_percentage, h0]
    · rcases hm : s.max_value with _ | m
      · rcases hc : s.current_value with _ | c <;>
          simp [Observer.get_percentage, h0, hm, hc]
      · have hm0 : ¬ m = 0 := by
          intro hz
          exact h0 (by rw [hm, hz])
        rcases hc : s.current_value with _ | c <;>
          simp [Observer.get_percentage, h0, hm, hc, hm0]
  · rw [Observer.add, if_neg ha]
    rcases hc : s.current_value with _ | c <;> simp [hc]

/-- Witness for C9 at the fresh tracker, update value 7, add amount 5. -/
theorem C9_error_model_witness :
    (Observer.init.update 7).1.current_value = some 7 ∧
    (Observer.init.get_percentage = none ↔
      Observer.init.max_value ≠ some 0 ∧
      (Observer.init.current_value = none ∨ Observer.init.max_value = none)) ∧
    (Observer.init.add 5 = none ↔ Observer.init.current_value = none) ∧
    Observer.init.add 0 = some Observer.init :=
  C9_error_model Observer.init 7 5 (by decide)

/-- C10: neither construction nor start touches lastEmitTime, which keeps the
-1 construction sentinel, so the first emitting update after start computes
the document's update field as the truncation of
max(1500 * (now - (-1)), minRefreshMs) with now the absolute epoch
timestamp; for an epoch-scale now (at least 10^9 seconds) the field is at
least 1500 * 10^9 = 1.5 * 10^12 — an epoch-scale number of milliseconds, not
a delay derived from an observed inter-update interval. -/
theorem C10_first_emit_epoch (p maxv v : ℤ) (t0 now : ℚ) (r : JSObserver × Bool)
    (h : (((JSObserver.init p).start maxv t0).1).update v now = some r)
    (he : r.2 = true) :
    ((JSObserver.init p).start maxv t0).1.last_update_time = -1 ∧
    r.1.file.update = .interval
      (pyTrunc (max (1500 * (now - (-1))) (((1000 * p : ℤ)) : ℚ))) ∧
    ((10 ^ 9 : ℚ) ≤ now →
      (1500 * 10 ^ 9 : ℤ) ≤
        pyTrunc (max (1500 * (now - (-1))) (((1000 * p : ℤ)) : ℚ))) := by
  obtain ⟨ht, hsc, m, hm, hr⟩ :=
    jsUpdate_emit_inv (((JSObserver.init p).start maxv t0).1) v now r h he
  have hlut : (((JSObserver.init p).start maxv t0).1).last_update_time = -1 := rfl
  have hmr : (((JSObserver.init p).start maxv t0).1).minrefresh = 1000 * p := rfl
  refine ⟨rfl, ?_, ?_⟩
  · rw [hr]
    simp only [jsEmitState]
    rw [hlut, hmr]
  · intro hnow
    have harg : (((1500 * 10 ^ 9 : ℤ)) : ℚ) ≤
        max (1500 * (now - (-1))) (((1000 * p : ℤ)) : ℚ) := by
      have hstep : (1500 * 10 ^ 9 : ℚ) ≤ 1500 * (now - (-1)) := by
        have : (1500 : ℚ) * (now - (-1)) = 1500 * now + 1500 := by ring
        rw [this]
        linarith
      calc (((1500 * 10 ^ 9 : ℤ)) : ℚ) = (1500 * 10 ^ 9 : ℚ) := by push_cast; ring
        _ ≤ 1500 * (now - (-1)) := hstep
        _ ≤ max (1500 * (now - (-1))) (((1000 * p : ℤ)) : ℚ) := le_max_left _ _
    have hpos : (0 : ℚ) ≤ max (1500 * (now - (-1))) (((1000 * p : ℤ)) : ℚ) :=
      le_trans (by norm_num) harg
    rw [pyTrunc, if_pos hpos]
    exact Int.le_floor.mpr harg

/-- Witness for C10: the default sink started at time 0, first update at the
epoch-scale time 10^9 s. -/
theorem C10_first_emit_epoch_witness :
    ((JSObserver.init 5).start 100 0).1.last_update_time = -1 ∧
    (jsEmitState ((JSObserver.init 5).start 100 0).1 0 (10 ^ 9) 100, true).1.file.update =
      .interval (pyTrunc (max (1500 * ((10 ^ 9 : ℚ) - (-1))) (((1000 * 5 : ℤ)) : ℚ))) ∧
    ((10 ^ 9 : ℚ) ≤ 10 ^ 9 →
      (1500 * 10 ^ 9 : ℤ) ≤
        pyTrunc (max (1500 * ((10 ^ 9 : ℚ) - (-1))) (((1000 * 5 : ℤ)) : ℚ))) :=
  C10_first_emit_epoch 5 100 0 0 (10 ^ 9)
    (jsEmitState ((JSObserver.init 5).start 100 0).1 0 (10 ^ 9) 100, true)
    (jsUpdate_does_emit (((JSObserver.init 5).start 100 0).1) 0 (10 ^ 9) 100 rfl
      (by norm_num [JSObserver.init, JSObserver.start,
            show Int.fdiv (5000 : ℤ) 1000 = 5 from by decide])
      (by decide))
    rfl

end Overviewer
